import Mathlib

/-
  Verification development for the Central-Fuel-Plan pipeline (src/main.py).

  The pipeline loads a spreadsheet-shaped table, normalizes its column
  headers, filters rows by region, status, fueling-plan date and
  coordinates, and exports the surviving rows as JSON records.  The
  definitions below are a shallow embedding of `safe_parse_date`,
  `clean_and_filter` and `generate_dashboard`; each definition's doc
  comment points at the source lines it embeds.
-/

namespace CentralFuel

/-! ## Python string-operation models -/

/-- Drops trailing characters satisfying `p`; the right half of the model
of Python `str.strip()`. -/
def dropTrail (p : Char → Bool) : List Char → List Char
  | [] => []
  | c :: cs =>
    let r := dropTrail p cs
    if r.isEmpty && p c then [] else c :: r

/-- Model of Python `str.strip()` on a character list: removes leading and
trailing whitespace. -/
def pyStrip (cs : List Char) : List Char :=
  dropTrail Char.isWhitespace (cs.dropWhile Char.isWhitespace)

/-- Model of Python `str.strip()` on a string. -/
def strStrip (s : String) : String := ⟨pyStrip s.data⟩

/-- Model of Python `str.lower()` (ASCII range, which covers every string
the claims exercise). -/
def strLower (s : String) : String := ⟨s.data.map Char.toLower⟩

/-- Model of Python `str.upper()` (ASCII range). -/
def strUpper (s : String) : String := ⟨s.data.map Char.toUpper⟩

/-- Header normalization from `clean_and_filter` (src/main.py lines
115-121): `astype(str).str.strip().str.lower().str.replace(" ", "")`;
the replace removes every space character. -/
def normalizeHeader (s : String) : String :=
  ⟨((pyStrip s.data).map Char.toLower).filter (fun c => c != ' ')⟩

/-! ## Calendar dates and datetimes -/

/-- Gregorian leap-year test, as used by Python `datetime`. -/
def leapYear (y : Nat) : Bool :=
  y % 4 == 0 && (!(y % 100 == 0) || y % 400 == 0)

/-- Number of days in a month of a given year (Python `datetime` rules). -/
def daysInMonth (y m : Nat) : Nat :=
  if m == 2 then (if leapYear y then 29 else 28)
  else if m == 4 || m == 6 || m == 9 || m == 11 then 30
  else 31

/-- Validity of a datetime's fields, exactly the constraints Python's
`datetime` constructor enforces (year 1-9999, real calendar day, time
fields in range), plus a sub-microsecond nanosecond remainder `ns < 1000`
that is nonzero only for pandas `Timestamp` values. -/
def validDT (y mo d h mi s us ns : Nat) : Bool :=
  decide (1 ≤ y) && decide (y ≤ 9999) && decide (1 ≤ mo) && decide (mo ≤ 12) &&
  decide (1 ≤ d) && decide (d ≤ daysInMonth y mo) &&
  decide (h < 24) && decide (mi < 60) && decide (s < 60) &&
  decide (us < 1000000) && decide (ns < 1000)

/-- A point in time as Python `datetime` / pandas `Timestamp` hold it:
a valid proleptic-Gregorian calendar datetime at microsecond precision,
with an extra nanosecond remainder for `Timestamp` values. -/
structure DT where
  year : Nat
  month : Nat
  day : Nat
  hour : Nat
  minute : Nat
  second : Nat
  usec : Nat
  nsec : Nat
  ok : validDT year month day hour minute second usec nsec = true

instance : DecidableEq DT := fun a b =>
  if h : a.year = b.year ∧ a.month = b.month ∧ a.day = b.day ∧ a.hour = b.hour ∧
      a.minute = b.minute ∧ a.second = b.second ∧ a.usec = b.usec ∧ a.nsec = b.nsec then
    .isTrue (by
      obtain ⟨c1, c2, c3, c4, c5, c6, c7, c8⟩ := h
      cases a; cases b; simp_all)
  else
    .isFalse (by intro hh; cases hh; simp_all)

theorem validDT_zero_nsec {y mo d h mi s us ns : Nat}
    (hv : validDT y mo d h mi s us ns = true) :
    validDT y mo d h mi s us 0 = true := by
  simp only [validDT, Bool.and_eq_true, decide_eq_true_eq] at hv ⊢
  exact ⟨hv.1, by decide⟩

/-- `Timestamp.to_pydatetime()` truncates to microsecond precision,
discarding the nanosecond remainder. -/
def truncNs (t : DT) : DT :=
  ⟨t.year, t.month, t.day, t.hour, t.minute, t.second, t.usec, 0,
   validDT_zero_nsec t.ok⟩

/-- Days from 0001-01-01 to the start of year `y` (proleptic Gregorian). -/
def cumDays (y : Nat) : Nat :=
  365 * (y - 1) + (y - 1) / 4 + (y - 1) / 400 - (y - 1) / 100

/-- One-based ordinal of the day within its year. -/
def dayOfYear (y m d : Nat) : Nat :=
  ((List.range (m - 1)).map (fun i => daysInMonth y (i + 1))).sum + d

/-- Days since the Unix epoch 1970-01-01 (may be negative). -/
def epochDays (y m d : Nat) : Int :=
  (cumDays y : Int) + (dayOfYear y m d : Int) - 1 - 719162

/-- Nanoseconds since the Unix epoch of a `DT` value. -/
def nsSinceEpoch (t : DT) : Int :=
  epochDays t.year t.month t.day * 86400000000000 +
    ((t.hour * 3600 + t.minute * 60 + t.second : Nat) : Int) * 1000000000 +
    (t.usec : Int) * 1000 + (t.nsec : Int)

/-- Whether a point in time fits in a pandas nanosecond `Timestamp`
(a signed 64-bit nanosecond count since the epoch; the most negative
value is the NaT sentinel and is excluded).  pandas raises
`OutOfBoundsDatetime` outside this range. -/
def tsNsInBounds (t : DT) : Bool :=
  decide (-9223372036854775807 ≤ nsSinceEpoch t) &&
    decide (nsSinceEpoch t ≤ 9223372036854775807)

/-- A decimal digit character. -/
def dChar (n : Nat) : Char := Char.ofNat (48 + n % 10)

/-- Model of `strftime("%Y-%m-%d")` as used in `generate_dashboard`
(src/main.py line 214).  The year is rendered zero-padded to four digits;
this is what the platform produces for every year that can reach that
line, because the `pd.to_datetime` conversion at src/main.py line 160
admits only dates within the nanosecond `Timestamp` bounds (years
1677-2262), whose rendering needs no padding. -/
def formatYMD (t : DT) : String :=
  ⟨[dChar (t.year / 1000), dChar (t.year / 100), dChar (t.year / 10), dChar t.year, '-',
    dChar (t.month / 10), dChar t.month, '-', dChar (t.day / 10), dChar t.day]⟩

/-- Textual `YYYY-MM-DD` shape: four digits, dash, two digits, dash, two
digits, and nothing else. -/
def matchesYMD (s : String) : Bool :=
  match s.data with
  | [a, b, c, d, e, f, g, h, i, j] =>
    a.isDigit && b.isDigit && c.isDigit && d.isDigit && (e == '-') &&
      f.isDigit && g.isDigit && (h == '-') && i.isDigit && j.isDigit
  | _ => false

/-! ## Cell values and numeric coercion -/

/-- A Python float as the pipeline distinguishes them: an exact finite
value (the embedding keeps the exact rational; the real code rounds to
binary float64, a difference none of the claims depends on), positive or
negative infinity, or NaN. -/
inductive PFloat where
  | finite : Rat → PFloat
  | inf : PFloat
  | neginf : PFloat
  | nan : PFloat
deriving DecidableEq, Repr

/-- NaN test (what pandas `isna`/`dropna` detect on a float). -/
def PFloat.isNan : PFloat → Bool
  | .nan => true
  | _ => false

/-- A raw cell value as `clean_and_filter` can see it: a missing value
(NaN from `read_csv`, or Python `None`), a string, a number, or an
already datetime-like value (`datetime` or pandas `Timestamp`). -/
inductive PyVal where
  | none : PyVal
  | str : String → PyVal
  | num : PFloat → PyVal
  | dt : DT → PyVal
deriving DecidableEq

/-- Model of Python `str(...)` on a numeric cell.  Integer-valued cells
(the int64 columns `read_csv` produces) render with no decimal point;
for non-integer values the embedding keeps the rational rendering, a
difference no claim depends on. -/
def pyStrNum : PFloat → String
  | .finite q => if q.den == 1 then toString q.num else toString q
  | .inf => "inf"
  | .neginf => "-inf"
  | .nan => "nan"

/-- Model of Python `str(...)` on a cell value, as applied by
`astype(str)` and by `safe_parse_date` line 40.  The `.none` case is the
pandas rendering of NaN; the datetime case is unreachable in the code
paths modelled here (the datetime branch of `safe_parse_date` returns
first, and `astype(str)` is only applied to string columns). -/
def pyStr : PyVal → String
  | .none => "nan"
  | .str s => s
  | .num f => pyStrNum f
  | .dt _ => ""

/-- Digit value of a character. -/
def digitVal (c : Char) : Nat := c.toNat - 48

/-- Natural number denoted by a digit list (most significant first). -/
def digitsToNat (cs : List Char) : Nat :=
  cs.foldl (fun a c => 10 * a + digitVal c) 0

/-- Decimal literal parser backing the model of
`pd.to_numeric(errors="coerce")`: optional digits, optional fractional
part, optional exponent, at least one digit in the mantissa.  Returns the
exact value as an integer numerator and a power-of-ten denominator. -/
def parseDecimal (cs : List Char) : Option (Nat × Nat) :=
  let intPart := cs.takeWhile Char.isDigit
  let rest1 := cs.dropWhile Char.isDigit
  let (fracPart, rest2) :=
    match rest1 with
    | '.' :: r => (r.takeWhile Char.isDigit, r.dropWhile Char.isDigit)
    | _ => ([], rest1)
  if intPart.isEmpty && fracPart.isEmpty then Option.none
  else
    let m := digitsToNat (intPart ++ fracPart)
    let base := fracPart.length
    match rest2 with
    | [] => some (m, 10 ^ base)
    | 'e' :: r =>
      let (eneg, r2) :=
        match r with
        | '+' :: r3 => (false, r3)
        | '-' :: r3 => (true, r3)
        | _ => (false, r)
      if r2.isEmpty || !(r2.all Char.isDigit) then Option.none
      else
        let e := digitsToNat r2
        some (if eneg then (m, 10 ^ (base + e)) else (m * 10 ^ e, 10 ^ base))
    | _ => Option.none

/-- Model of the element behavior of `pd.to_numeric(errors="coerce")` on
a string (src/main.py lines 163-164): surrounding whitespace is ignored,
an optional sign is followed by a decimal literal or by the
case-insensitive words `inf`/`infinity` (yielding an infinity, which is
not missing and therefore survives `dropna`) or `nan`; anything else is
coerced to NaN. -/
def parseNumericString (s : String) : PFloat :=
  let cs := (pyStrip s.data).map Char.toLower
  let (neg, body) :=
    match cs with
    | '+' :: r => (false, r)
    | '-' :: r => (true, r)
    | _ => (false, cs)
  if body == ['i', 'n', 'f'] || body == ['i', 'n', 'f', 'i', 'n', 'i', 't', 'y'] then
    if neg then PFloat.neginf else PFloat.inf
  else if body == ['n', 'a', 'n'] then PFloat.nan
  else
    match parseDecimal body with
    | some (m, d) => PFloat.finite (mkRat (if neg then -(m : Int) else (m : Int)) d)
    | Option.none => PFloat.nan

/-- Model of `pd.to_numeric(errors="coerce")` on one cell: numbers pass
through, missing values and unparseable values become NaN. -/
def toNum : PyVal → PFloat
  | .num f => f
  | .str s => parseNumericString s
  | .none => PFloat.nan
  | .dt _ => PFloat.nan

/-! ## The date normalizer `safe_parse_date` (src/main.py lines 24-70) -/

/-- Field taker for `strptime` directives `%m` and `%d`: one or two
digits whose value lies in `lo..hi`.  Two digits are taken when two are
available; this is equivalent to the CPython `_strptime` regex
alternations `1[0-2]|0[1-9]|[1-9]` and `3[01]|[12]\d|0[1-9]|[1-9]`,
because the one-digit alternative can only rescue a failed match when the
following pattern element starts at the second digit, and every format in
the source follows these fields with a non-digit separator or the end of
the string. -/
def takeNum2 (lo hi : Nat) : List Char → Option (Nat × List Char)
  | a :: b :: rest =>
    if a.isDigit && b.isDigit then
      let v := 10 * digitVal a + digitVal b
      if lo ≤ v && v ≤ hi then some (v, rest) else Option.none
    else if a.isDigit then
      let v := digitVal a
      if lo ≤ v && v ≤ hi then some (v, b :: rest) else Option.none
    else Option.none
  | [a] =>
    if a.isDigit then
      let v := digitVal a
      if lo ≤ v && v ≤ hi then some (v, []) else Option.none
    else Option.none
  | [] => Option.none

/-- Field taker for `strptime` directive `%Y`: exactly four digits
(the CPython `_strptime` pattern for `Y` is four digit characters). -/
def takeYear4 : List Char → Option (Nat × List Char)
  | a :: b :: c :: d :: rest =>
    if a.isDigit && b.isDigit && c.isDigit && d.isDigit then
      some (1000 * digitVal a + 100 * digitVal b + 10 * digitVal c + digitVal d, rest)
    else Option.none
  | _ => Option.none

/-- Literal separator in a `strptime` format. -/
def expectChar (c : Char) : List Char → Option (List Char)
  | x :: rest => if x == c then some rest else Option.none
  | [] => Option.none

/-- Whitespace in a `strptime` format matches one or more whitespace
characters. -/
def takeWs : List Char → Option (List Char)
  | c :: cs =>
    if c.isWhitespace then some (cs.dropWhile Char.isWhitespace) else Option.none
  | [] => Option.none

/-- Month number of a lowercased three-letter abbreviation (the C-locale
names `%b` matches, case-insensitively). -/
def monIndex (w : List Char) : Option Nat :=
  if w == ['j', 'a', 'n'] then some 1
  else if w == ['f', 'e', 'b'] then some 2
  else if w == ['m', 'a', 'r'] then some 3
  else if w == ['a', 'p', 'r'] then some 4
  else if w == ['m', 'a', 'y'] then some 5
  else if w == ['j', 'u', 'n'] then some 6
  else if w == ['j', 'u', 'l'] then some 7
  else if w == ['a', 'u', 'g'] then some 8
  else if w == ['s', 'e', 'p'] then some 9
  else if w == ['o', 'c', 't'] then some 10
  else if w == ['n', 'o', 'v'] then some 11
  else if w == ['d', 'e', 'c'] then some 12
  else Option.none

/-- Field taker for `strptime` directive `%b`. -/
def takeMon : List Char → Option (Nat × List Char)
  | a :: b :: c :: rest =>
    match monIndex [a.toLower, b.toLower, c.toLower] with
    | some m => some (m, rest)
    | Option.none => Option.none
  | _ => Option.none

/-- The `datetime` constructor applied after a format matches: the parse
succeeds only if the fields form a real calendar date (this is where
`strptime` rejects, e.g., February 30). -/
def mkDate (y mo d : Nat) : Option DT :=
  if h : validDT y mo d 0 0 0 0 0 = true then
    some ⟨y, mo, d, 0, 0, 0, 0, 0, h⟩
  else Option.none

/-- `strptime(s, "%m-%d-%Y")`, a full-string match. -/
def pMDY (s : String) : Option DT := do
  let (mo, r1) ← takeNum2 1 12 s.data
  let r2 ← expectChar '-' r1
  let (d, r3) ← takeNum2 1 31 r2
  let r4 ← expectChar '-' r3
  let (y, r5) ← takeYear4 r4
  if r5.isEmpty then mkDate y mo d else Option.none

/-- `strptime(s, "%Y-%m-%d")`, a full-string match. -/
def pYMD (s : String) : Option DT := do
  let (y, r1) ← takeYear4 s.data
  let r2 ← expectChar '-' r1
  let (mo, r3) ← takeNum2 1 12 r2
  let r4 ← expectChar '-' r3
  let (d, r5) ← takeNum2 1 31 r4
  if r5.isEmpty then mkDate y mo d else Option.none

/-- `strptime(s, "%d-%m-%Y")`, a full-string match. -/
def pDMY (s : String) : Option DT := do
  let (d, r1) ← takeNum2 1 31 s.data
  let r2 ← expectChar '-' r1
  let (mo, r3) ← takeNum2 1 12 r2
  let r4 ← expectChar '-' r3
  let (y, r5) ← takeYear4 r4
  if r5.isEmpty then mkDate y mo d else Option.none

/-- `strptime(s, "%d/%m/%Y")`, a full-string match. -/
def pDMYslash (s : String) : Option DT := do
  let (d, r1) ← takeNum2 1 31 s.data
  let r2 ← expectChar '/' r1
  let (mo, r3) ← takeNum2 1 12 r2
  let r4 ← expectChar '/' r3
  let (y, r5) ← takeYear4 r4
  if r5.isEmpty then mkDate y mo d else Option.none

/-- `strptime(s, "%m/%d/%Y")`, a full-string match. -/
def pMDYslash (s : String) : Option DT := do
  let (mo, r1) ← takeNum2 1 12 s.data
  let r2 ← expectChar '/' r1
  let (d, r3) ← takeNum2 1 31 r2
  let r4 ← expectChar '/' r3
  let (y, r5) ← takeYear4 r4
  if r5.isEmpty then mkDate y mo d else Option.none

/-- `strptime(s, "%d-%b-%Y")`, a full-string match. -/
def pDbY (s : String) : Option DT := do
  let (d, r1) ← takeNum2 1 31 s.data
  let r2 ← expectChar '-' r1
  let (mo, r3) ← takeMon r2
  let r4 ← expectChar '-' r3
  let (y, r5) ← takeYear4 r4
  if r5.isEmpty then mkDate y mo d else Option.none

/-- `strptime(s, "%d %b %Y")`, a full-string match. -/
def pDbYspace (s : String) : Option DT := do
  let (d, r1) ← takeNum2 1 31 s.data
  let r2 ← takeWs r1
  let (mo, r3) ← takeMon r2
  let r4 ← takeWs r3
  let (y, r5) ← takeYear4 r4
  if r5.isEmpty then mkDate y mo d else Option.none

/-- The ordered format list of src/main.py lines 49-57. -/
def formatsList : List (String → Option DT) :=
  [pMDY, pYMD, pDMY, pDMYslash, pMDYslash, pDbY, pDbYspace]

/-- The loop of src/main.py lines 59-63: try each format in order and
return the first successful parse. -/
def tryFormats : List (String → Option DT) → String → Option DT
  | [], _ => Option.none
  | p :: ps, s =>
    match p s with
    | some d => some d
    | Option.none => tryFormats ps s

/-- Modelled from the behavior of `pd.to_datetime(s, errors="raise")`
(the last-resort fallback at src/main.py lines 66-68) on the string
classes the claims exercise: an eight-digit string parses as `YYYYMMDD`
when it denotes a real date within `Timestamp` bounds; every other
pure-digit string — in particular five-digit spreadsheet serials such as
`"45640"`, and digit strings with a decimal point such as `"45640.0"` —
raises in pandas (dateutil rejects a lone numeric token that is neither
a recognized fixed-width date nor a possible day), which the caller
converts to `None`, here `Option.none`. -/
def pandasGeneric (s : String) : Option DT :=
  match s.data with
  | [a, b, c, d, e, f, g, h] =>
    if a.isDigit && b.isDigit && c.isDigit && d.isDigit && e.isDigit &&
        f.isDigit && g.isDigit && h.isDigit then
      let y := 1000 * digitVal a + 100 * digitVal b + 10 * digitVal c + digitVal d
      let mo := 10 * digitVal e + digitVal f
      let dd := 10 * digitVal g + digitVal h
      match mkDate y mo dd with
      | some t => if tsNsInBounds t then some t else Option.none
      | Option.none => Option.none
    else Option.none
  | _ => Option.none

/-- Outcome of one `safe_parse_date` call: an uncaught exception, the
`None` sentinel, or a datetime. -/
inductive ParseOutcome where
  | raised : ParseOutcome
  | invalid : ParseOutcome
  | date : DT → ParseOutcome
deriving DecidableEq

/-- The sheet error tokens skipped at src/main.py line 45. -/
def errTokens : List String := ["#N/A", "#DIV/0!", "#VALUE!", "N/A"]

/-- The string branch of `safe_parse_date` (src/main.py lines 40-70):
strip, reject blanks and error tokens, try the ordered formats, then the
pandas fallback; every failure yields the `None` sentinel. -/
def parseString (s0 : String) : ParseOutcome :=
  let s : String := ⟨pyStrip s0.data⟩
  if s.data.isEmpty then .invalid
  else if s ∈ errTokens then .invalid
  else
    match tryFormats formatsList s with
    | some t => .date t
    | Option.none =>
      match pandasGeneric s with
      | some t => .date t
      | Option.none => .invalid

/-- Shallow embedding of `safe_parse_date` (src/main.py lines 24-70).
`None` returns the sentinel; a datetime-like value is converted with
`pd.to_datetime(value).to_pydatetime()` — a call *outside* any
`try`/`except`, which raises `OutOfBoundsDatetime` when the value does
not fit a nanosecond `Timestamp` (pandas routes scalar datetimes through
its nanosecond array conversion) and otherwise returns the same point in
time truncated to microseconds; NaN is caught by `pd.isna`; everything
else is stringified and handled by the string branch. -/
def safeParseDate : PyVal → ParseOutcome
  | .none => .invalid
  | .dt t => if tsNsInBounds t then .date (truncNs t) else .raised
  | .num .nan => .invalid
  | .num f => parseString (pyStrNum f)
  | .str s => parseString s

/-! ## The filter pipeline `clean_and_filter` (src/main.py lines 102-187) -/

/-- A table row, viewed through the six canonical columns the pipeline
reads.  `clean_and_filter` verifies the canonical names exist (lines
133-137) before touching any row, so a row reaching the filters always
has exactly these slots. -/
structure Row where
  sitename : PyVal
  regionname : PyVal
  cowstatus : PyVal
  nextfuelingplan : PyVal
  lat : PyVal
  lng : PyVal
deriving DecidableEq

/-- A raw table: the header labels as they appear in the source, plus
the rows. -/
structure Table where
  headers : List String
  rows : List Row

/-- The canonical column names required at src/main.py lines 126-134. -/
def requiredCols : List String :=
  ["sitename", "regionname", "cowstatus", "nextfuelingplan", "lat", "lng"]

/-- The missing-column computation of src/main.py line 135:
`[c for c in required if c not in df.columns]` over the normalized
headers. -/
def missingCols (headers : List String) : List String :=
  requiredCols.filter (fun c => !((headers.map normalizeHeader).contains c))

/-- Errors `clean_and_filter` can raise: the `KeyError` of line 137 and
the `OutOfBoundsDatetime` that `pd.to_datetime` raises (line 160 for the
parsed-date column, or propagated out of `apply(safe_parse_date)` at
line 151). -/
inductive PipeErr where
  | missingColumns : List String → PipeErr
  | outOfBoundsDatetime : PipeErr
  | parseRaised : PipeErr
deriving DecidableEq

/-- The stored region value after line 140 (`astype(str)`). -/
def regionStr (r : Row) : String := pyStr r.regionname

/-- Region stage (src/main.py lines 140-141): keep rows whose region,
stripped and lowered, equals `"central"`. -/
def regionFilter (rs : List Row) : List Row :=
  rs.filter (fun r => strLower (strStrip (regionStr r)) == "central")

/-- The stored status value after line 145
(`astype(str).str.upper().str.strip()`). -/
def statusStr (r : Row) : String := strStrip (strUpper (pyStr r.cowstatus))

/-- Status stage (src/main.py lines 145-146): keep rows whose normalized
status is `ON-AIR` or `IN PROGRESS`. -/
def statusFilter (rs : List Row) : List Row :=
  rs.filter (fun r => ["ON-AIR", "IN PROGRESS"].contains (statusStr r))

/-- Date stage (src/main.py lines 151-153): apply `safe_parse_date` to
the fueling-plan column and drop the rows where it returned `None`; an
exception escaping `safe_parse_date` aborts the whole stage. -/
def dateFilter : List Row → Except PipeErr (List (Row × DT))
  | [] => .ok []
  | r :: rs =>
    match safeParseDate r.nextfuelingplan with
    | .raised => .error .parseRaised
    | .invalid => dateFilter rs
    | .date t => do
      let ps ← dateFilter rs
      .ok ((r, t) :: ps)

/-- Line 160, `pd.to_datetime(df["parsed_date"])`: converting the kept
dates to a nanosecond `datetime64` column raises `OutOfBoundsDatetime`
if any of them falls outside `Timestamp` bounds, and otherwise keeps
every value. -/
def boundsConvert (ps : List (Row × DT)) : Except PipeErr (List (Row × DT)) :=
  if ps.all (fun p => tsNsInBounds p.2) then .ok ps else .error .outOfBoundsDatetime

/-- Coordinate stage (src/main.py lines 163-166): coerce `lat` and `lng`
to numbers and drop rows where either is missing (NaN).  Infinities are
not missing and survive. -/
def coordFilter (ps : List (Row × DT)) : List (Row × DT × PFloat × PFloat) :=
  ps.filterMap (fun p =>
    let la := toNum p.1.lat
    let ln := toNum p.1.lng
    if la.isNan || ln.isNan then Option.none else some (p.1, p.2, la, ln))

/-- One record of the cleaned dataframe built at src/main.py lines
175-184. -/
structure CleanRecord where
  siteName : String
  region : String
  cowStatus : String
  nextFuelingPlan : DT
  lat : PFloat
  lng : PFloat
deriving DecidableEq

/-- The projection of lines 175-184: strip the string fields (the status
was already stripped at line 145, the region keeps its original casing)
and carry the parsed date and numeric coordinates. -/
def project (p : Row × DT × PFloat × PFloat) : CleanRecord :=
  ⟨strStrip (pyStr p.1.sitename),
   strStrip (regionStr p.1),
   strStrip (statusStr p.1),
   p.2.1, p.2.2.1, p.2.2.2⟩

/-- Shallow embedding of `clean_and_filter` (src/main.py lines 102-187):
normalize headers, fail on missing canonical columns, then apply the
region, status, date and coordinate stages in that order and project the
survivors. -/
def cleanAndFilter (t : Table) : Except PipeErr (List CleanRecord) :=
  match missingCols t.headers with
  | [] => do
    let rs1 := regionFilter t.rows
    let rs2 := statusFilter rs1
    let ps ← dateFilter rs2
    let ps2 ← boundsConvert ps
    .ok ((coordFilter ps2).map project)
  | ms => .error (.missingColumns ms)

deriving instance DecidableEq for Except

/-! ## Export `generate_dashboard` (src/main.py lines 193-221) -/

/-- One exported record: the date is rendered as `YYYY-MM-DD`
(src/main.py line 214). -/
structure DashRecord where
  siteName : String
  region : String
  cowStatus : String
  nextFuelingPlan : String
  lat : PFloat
  lng : PFloat
deriving DecidableEq

/-- Line 214: render every record's date as `YYYY-MM-DD`. -/
def dashRecords (rs : List CleanRecord) : List DashRecord :=
  rs.map (fun c => ⟨c.siteName, c.region, c.cowStatus,
    formatYMD c.nextFuelingPlan, c.lat, c.lng⟩)

/-- JSON string escaping as `json.dump` performs it (`ensure_ascii=False`
leaves non-ASCII characters literal). -/
def escChar (c : Char) : List Char :=
  if c == '"' then ['\\', '"']
  else if c == '\\' then ['\\', '\\']
  else if c == '\n' then ['\\', 'n']
  else if c == '\t' then ['\\', 't']
  else if c == '\r' then ['\\', 'r']
  else if c.toNat < 32 then
    ['\\', 'u', '0', '0', dChar (c.toNat / 16), dChar (c.toNat % 16)]
  else [c]

/-- A JSON string literal. -/
def jsonStr (s : String) : String :=
  ⟨'"' :: (s.data.foldr (fun c acc => escChar c ++ acc) ['"'])⟩

/-- Left-pad a digit string with zeros. -/
def padZeros (k : Nat) (s : String) : String :=
  ⟨List.replicate (k - s.data.length) '0' ++ s.data⟩

/-- Decimal rendering of a finite float for JSON.  Modelled from the
Python float `repr`: exact when the value has a short decimal expansion,
and truncated at seventeen fractional digits otherwise (the real code
prints the shortest round-tripping decimal of the rounded float64; no
claim depends on the digits printed). -/
def ratDecimal (q : Rat) : String :=
  let sgn := if q.num < 0 then "-" else ""
  let n := q.num.natAbs
  if q.den == 1 then sgn ++ toString n ++ ".0"
  else
    let k := (((List.range 17).find? (fun k => (n * 10 ^ (k + 1)) % q.den == 0)).getD 16) + 1
    let scaled := n * 10 ^ k / q.den
    sgn ++ toString (scaled / 10 ^ k) ++ "." ++ padZeros k (toString (scaled % 10 ^ k))

/-- JSON rendering of a float; `json.dump` writes the non-standard
tokens `Infinity`, `-Infinity` and `NaN` for the non-finite values. -/
def jsonNum : PFloat → String
  | .finite q => ratDecimal q
  | .inf => "Infinity"
  | .neginf => "-Infinity"
  | .nan => "NaN"

/-- One record as `json.dump(..., indent=2)` lays it out. -/
def jsonRecord (r : DashRecord) : String :=
  "  \x7b\n    \"SiteName\": " ++ jsonStr r.siteName ++
  ",\n    \"Region\": " ++ jsonStr r.region ++
  ",\n    \"COWStatus\": " ++ jsonStr r.cowStatus ++
  ",\n    \"NextFuelingPlan\": " ++ jsonStr r.nextFuelingPlan ++
  ",\n    \"lat\": " ++ jsonNum r.lat ++
  ",\n    \"lng\": " ++ jsonNum r.lng ++ "\n  \x7d"

/-- The text `json.dump(records, f, indent=2, ensure_ascii=False)` writes
(src/main.py lines 216-219): the empty list renders as the two-character
array `[]`. -/
def dumpJson (rs : List DashRecord) : String :=
  match rs with
  | [] => "[]"
  | _ => "[\n" ++ String.intercalate ",\n" (rs.map jsonRecord) ++ "\n]"

/-- End-to-end export: the JSON text produced for a cleaned dataset. -/
def generateDashboard (rs : List CleanRecord) : String :=
  dumpJson (dashRecords rs)

/-! ## Sample data used by concrete instantiations -/

/-- Header row of the "Energy Dashboard" sheet shape the code expects. -/
def hsStd : List String :=
  ["SiteName", "RegionName", "COWStatus", "NextFuelingPlan", "Lat", "Lng"]

/-- The row of end-to-end scenario A of the specification. -/
def rowA : Row :=
  ⟨.str "Site1", .str "Central", .str "On-Air", .str "12-15-2025",
   .str "24.7136", .str "46.6753"⟩

/-- A Central on-air row whose latitude cell reads `inf`. -/
def rowInf : Row :=
  ⟨.str "Site3", .str "Central", .str "IN PROGRESS", .str "12-15-2025",
   .str "inf", .str "46.6753"⟩

/-- 2025-12-15 at midnight. -/
def dtDec15 : DT := ⟨2025, 12, 15, 0, 0, 0, 0, 0, by decide⟩

/-- The cleaned record scenario A produces. -/
def recA : CleanRecord :=
  ⟨"Site1", "Central", "ON-AIR", dtDec15,
   .finite (mkRat 247136 10000), .finite (mkRat 466753 10000)⟩

/-- The exported record scenario A produces. -/
def drA : DashRecord :=
  ⟨"Site1", "Central", "ON-AIR", "2025-12-15",
   .finite (mkRat 247136 10000), .finite (mkRat 466753 10000)⟩

/-! ## Helper lemmas -/

theorem dateFilter_ok_mem {rs : List Row} {ps : List (Row × DT)}
    (h : dateFilter rs = .ok ps) {r : Row} {t : DT} (hm : (r, t) ∈ ps) :
    r ∈ rs ∧ safeParseDate r.nextfuelingplan = .date t := by
  induction rs generalizing ps with
  | nil =>
    simp only [dateFilter, Except.ok.injEq] at h
    subst h
    simp at hm
  | cons a as ih =>
    simp only [dateFilter] at h
    cases hp : safeParseDate a.nextfuelingplan with
    | raised => rw [hp] at h; exact absurd h (by simp)
    | invalid =>
      rw [hp] at h
      have hih := ih h hm
      exact ⟨List.mem_cons_of_mem _ hih.1, hih.2⟩
    | date t' =>
      rw [hp] at h
      cases hrec : dateFilter as with
      | error e => rw [hrec] at h; exact absurd h (by simp [Bind.bind, Except.bind])
      | ok ps' =>
        rw [hrec] at h
        simp only [Bind.bind, Except.bind, Except.ok.injEq] at h
        subst h
        rcases List.mem_cons.mp hm with heq | htail
        · injection heq with h1 h2
          exact ⟨by simp [h1], by rw [h1, h2]; exact hp⟩
        · have hih := ih hrec htail
          exact ⟨List.mem_cons_of_mem _ hih.1, hih.2⟩

theorem dateFilter_ok_sublist {rs : List Row} {ps : List (Row × DT)}
    (h : dateFilter rs = .ok ps) : List.Sublist (ps.map Prod.fst) rs := by
  induction rs generalizing ps with
  | nil =>
    simp only [dateFilter, Except.ok.injEq] at h
    subst h; simp
  | cons a as ih =>
    simp only [dateFilter] at h
    cases hp : safeParseDate a.nextfuelingplan with
    | raised => rw [hp] at h; exact absurd h (by simp)
    | invalid =>
      rw [hp] at h
      exact (ih h).cons a
    | date t' =>
      rw [hp] at h
      cases hrec : dateFilter as with
      | error e => rw [hrec] at h; exact absurd h (by simp [Bind.bind, Except.bind])
      | ok ps' =>
        rw [hrec] at h
        simp only [Bind.bind, Except.bind, Except.ok.injEq] at h
        subst h
        simpa using (ih hrec).cons₂ a

theorem coordFilter_shape {ps : List (Row × DT)} {q : Row × DT × PFloat × PFloat}
    (hq : q ∈ coordFilter ps) :
    (q.1, q.2.1) ∈ ps ∧ q.2.2.1 = toNum q.1.lat ∧ q.2.2.2 = toNum q.1.lng ∧
      (toNum q.1.lat).isNan = false ∧ (toNum q.1.lng).isNan = false := by
  simp only [coordFilter, List.mem_filterMap] at hq
  obtain ⟨p, hp, hcond⟩ := hq
  by_cases hnan : ((toNum p.1.lat).isNan || (toNum p.1.lng).isNan) = true
  · rw [if_pos hnan] at hcond; cases hcond
  · rw [if_neg hnan] at hcond
    cases hcond
    simp only [Bool.or_eq_true, not_or, Bool.not_eq_true] at hnan
    exact ⟨hp, rfl, rfl, hnan.1, hnan.2⟩

theorem coordFilter_sublist (ps : List (Row × DT)) :
    List.Sublist ((coordFilter ps).map (fun q => (q.1, q.2.1))) ps := by
  induction ps with
  | nil => simp [coordFilter]
  | cons p ps ih =>
    simp only [coordFilter, List.filterMap_cons]
    cases hnan : ((toNum p.1.lat).isNan || (toNum p.1.lng).isNan) with
    | true => simpa [coordFilter] using (ih.cons p)
    | false => simpa [coordFilter] using (ih.cons₂ p)

theorem boundsConvert_ok {ps qs : List (Row × DT)}
    (h : boundsConvert ps = .ok qs) : qs = ps := by
  by_cases hb : ps.all (fun p => tsNsInBounds p.2) = true
  · simp only [boundsConvert, if_pos hb, Except.ok.injEq] at h
    exact h.symm
  · simp [boundsConvert, if_neg hb] at h

theorem digit_char_facts :
    ∀ k, k < 10 → (Char.ofNat (48 + k)).isDigit = true ∧
      ((Char.ofNat (48 + k)) == '-') = false ∧
      (Char.ofNat (48 + k)).isWhitespace = false ∧
      digitVal (Char.ofNat (48 + k)) = k := by decide

theorem dChar_isDigit (n : Nat) : (dChar n).isDigit = true :=
  (digit_char_facts (n % 10) (Nat.mod_lt _ (by decide))).1

theorem dChar_ne_dash (n : Nat) : (dChar n == '-') = false :=
  (digit_char_facts (n % 10) (Nat.mod_lt _ (by decide))).2.1

theorem dChar_not_ws (n : Nat) : (dChar n).isWhitespace = false :=
  (digit_char_facts (n % 10) (Nat.mod_lt _ (by decide))).2.2.1

theorem digitVal_dChar (n : Nat) : digitVal (dChar n) = n % 10 :=
  (digit_char_facts (n % 10) (Nat.mod_lt _ (by decide))).2.2.2

theorem matchesYMD_formatYMD (t : DT) : matchesYMD (formatYMD t) = true := by
  simp [matchesYMD, formatYMD, dChar_isDigit]

/-! ## Claims -/

/-- C1, counterexample: the numeric value 45640 does not normalize to
1899-12-30 + 45640 days = 2024-12-25; `safe_parse_date` has no
serial-number branch and returns `None` for it. -/
theorem c1_claim_false :
    safeParseDate (.num (.finite 45640)) = .invalid ∧
    safeParseDate (.num (.finite 45640)) ≠
      .date ⟨2024, 12, 25, 0, 0, 0, 0, 0, by decide⟩ :=
  ⟨by decide, by decide⟩

/-- C1, amended: numeric input values are not interpreted as
spreadsheet day-count serials.  A numeric cell is stringified and run
through the string patterns and the generic fallback, so the value 45640
normalizes to the `None` sentinel, and a row carrying it in the
fueling-plan cell is never retained by the date filter stage. -/
theorem c1_amended :
    safeParseDate (.num (.finite 45640)) = .invalid ∧
    ∀ (rs : List Row) (ps : List (Row × DT)) (r : Row) (t : DT),
      dateFilter rs = .ok ps → (r, t) ∈ ps →
      r.nextfuelingplan ≠ .num (.finite 45640) := by
  refine ⟨by decide, ?_⟩
  intro rs ps r t hok hm hbad
  have h := (dateFilter_ok_mem hok hm).2
  rw [hbad] at h
  have hinv : safeParseDate (.num (.finite 45640)) = .invalid := by decide
  rw [hinv] at h
  exact ParseOutcome.noConfusion h

/-- C1, witness for the amended claim at a concrete table. -/
theorem c1_witness : rowA.nextfuelingplan ≠ .num (.finite 45640) :=
  c1_amended.2 [rowA] [(rowA, dtDec15)] rowA dtDec15 (by decide) (by decide)

/-- C2, counterexample: headers normalizing to `region` and
`nextfueldate` — both claimed aliases — do not resolve; the code accepts
exactly one canonical name per logical field and raises `KeyError`
naming the missing canonical names. -/
theorem c2_claim_false :
    cleanAndFilter ⟨["SiteName", "Region", "COW Status", "Next Fuel Date", "Lat", "Lng"], []⟩ =
      .error (.missingColumns ["regionname", "nextfuelingplan"]) := by decide

/-- C2, amended: after normalization (strip, lowercase, remove spaces)
each logical field is matched against exactly one canonical name —
`sitename`, `regionname`, `cowstatus`, `nextfuelingplan`, `lat`, `lng`;
no alternative aliases are accepted, and resolution succeeds precisely
when every canonical name occurs among the normalized headers. -/
theorem c2_amended :
    ∀ hs : List String,
      missingCols hs = [] ↔ ∀ c ∈ requiredCols, c ∈ hs.map normalizeHeader := by
  intro hs
  rw [missingCols, List.filter_eq_nil_iff]
  constructor
  · intro h c hc
    have := h c hc
    simpa using this
  · intro h c hc
    simpa using h c hc

/-- C2, witness: the canonical header set resolves. -/
theorem c2_witness : missingCols hsStd = [] :=
  (c2_amended hsStd).mpr (by decide)

/-- C8: the date normalizer is claimed total and exception-free, but the
datetime branch calls `pd.to_datetime(value)` outside any `try` block
(src/main.py line 31), which raises `OutOfBoundsDatetime` for a datetime
outside the nanosecond `Timestamp` range — here `datetime(1, 1, 1)` —
contradicting the function's own docstring (`Return a valid datetime or
None if not a valid date`). -/
theorem c8_bug :
    safeParseDate (.dt ⟨1, 1, 1, 0, 0, 0, 0, 0, by decide⟩) = .raised := by decide

/-- C10, counterexample: a datetime value outside the nanosecond
`Timestamp` range is not returned unchanged — the conversion raises. -/
theorem c10_claim_false :
    safeParseDate (.dt ⟨9999, 12, 31, 23, 59, 59, 0, 0, by decide⟩) = .raised ∧
    ∀ t : DT, ParseOutcome.raised ≠ ParseOutcome.date t :=
  ⟨by decide, fun _ h => ParseOutcome.noConfusion h⟩

/-- C10, amended: for a datetime-like value within the nanosecond
`Timestamp` bounds, `safe_parse_date` returns the same point in time
truncated to microsecond precision (identical for plain datetimes, which
carry no sub-microsecond part), without applying the error-token check,
trimming, or the string patterns; outside those bounds the conversion
raises instead. -/
theorem c10_amended :
    ∀ t : DT, tsNsInBounds t = true → safeParseDate (.dt t) = .date (truncNs t) := by
  intro t h
  simp [safeParseDate, h]

/-- C10, witness: a nanosecond-precision Timestamp within bounds comes
back with its sub-microsecond part dropped. -/
theorem c10_witness :
    safeParseDate (.dt ⟨2025, 12, 15, 10, 30, 0, 5, 7, by decide⟩) =
      .date (truncNs ⟨2025, 12, 15, 10, 30, 0, 5, 7, by decide⟩) :=
  c10_amended _ (by decide)

/-- Helper for C5: a value that strips to the empty string or to one of
the sheet error tokens normalizes to the `None` sentinel. -/
theorem blank_or_token_invalid (s : String)
    (h : strStrip s = "" ∨ strStrip s ∈ errTokens) :
    safeParseDate (.str s) = .invalid := by
  show parseString s = .invalid
  rcases h with he | ht
  · have hd : pyStrip s.data = [] := by
      have := congrArg String.data he
      simpa [strStrip] using this
    simp [parseString, hd]
  · have hne : (⟨pyStrip s.data⟩ : String).data.isEmpty = false := by
      simp only [errTokens, List.mem_cons, List.not_mem_nil, or_false] at ht
      rcases ht with h1 | h1 | h1 | h1 <;>
        · have hd := congrArg String.data h1
          simp only [strStrip] at hd
          simp [hd]
    have hts : (⟨pyStrip s.data⟩ : String) ∈ errTokens := by
      simpa [strStrip] using ht
    simp [parseString, hne, hts]

/-- C4: the string formats are tried in exactly the source order
`%m-%d-%Y`, `%Y-%m-%d`, `%d-%m-%Y`, `%d/%m/%Y`, `%m/%d/%Y`, `%d-%b-%Y`,
`%d %b %Y`, each as an exact full-string match; the first format that
matches supplies the result and no later format is attempted.
Consequently the ambiguous `03-04-2025` parses as March 4, 2025, and
`12-15-2025` as December 15, 2025. -/
theorem c4 :
    (∀ (s : String) (t : DT), pMDY s = some t →
      tryFormats formatsList s = some t) ∧
    (∀ (s : String) (t : DT), pMDY s = Option.none → pYMD s = some t →
      tryFormats formatsList s = some t) ∧
    (∀ (s : String) (t : DT), pMDY s = Option.none → pYMD s = Option.none →
      pDMY s = some t → tryFormats formatsList s = some t) ∧
    (∀ (s : String) (t : DT), pMDY s = Option.none → pYMD s = Option.none →
      pDMY s = Option.none → pDMYslash s = some t →
      tryFormats formatsList s = some t) ∧
    (∀ (s : String) (t : DT), pMDY s = Option.none → pYMD s = Option.none →
      pDMY s = Option.none → pDMYslash s = Option.none → pMDYslash s = some t →
      tryFormats formatsList s = some t) ∧
    (∀ (s : String) (t : DT), pMDY s = Option.none → pYMD s = Option.none →
      pDMY s = Option.none → pDMYslash s = Option.none →
      pMDYslash s = Option.none → pDbY s = some t →
      tryFormats formatsList s = some t) ∧
    (∀ (s : String) (t : DT), pMDY s = Option.none → pYMD s = Option.none →
      pDMY s = Option.none → pDMYslash s = Option.none →
      pMDYslash s = Option.none → pDbY s = Option.none → pDbYspace s = some t →
      tryFormats formatsList s = some t) ∧
    safeParseDate (.str "03-04-2025") = .date ⟨2025, 3, 4, 0, 0, 0, 0, 0, by decide⟩ ∧
    safeParseDate (.str "12-15-2025") = .date ⟨2025, 12, 15, 0, 0, 0, 0, 0, by decide⟩ := by
  refine ⟨?_, ?_, ?_, ?_, ?_, ?_, ?_, by decide, by decide⟩ <;>
    · intro s t
      intros
      simp [tryFormats, formatsList, *]

/-- C4, witness: `2025-12-15` fails the first format and is taken by the
second. -/
theorem c4_witness : tryFormats formatsList "2025-12-15" = some dtDec15 :=
  c4.2.1 "2025-12-15" dtDec15 (by decide) (by decide)

/-- C5: a fueling-plan value that is empty (or whitespace only) or, once
stripped, one of the error tokens `#N/A`, `#DIV/0!`, `#VALUE!`, `N/A`
normalizes to the `None` sentinel, and no row holding such a value
survives the date filter stage. -/
theorem c5 :
    (∀ s : String, strStrip s = "" ∨ strStrip s ∈ errTokens →
      safeParseDate (.str s) = .invalid) ∧
    (∀ (rs : List Row) (ps : List (Row × DT)) (r : Row) (t : DT) (s : String),
      dateFilter rs = .ok ps → (r, t) ∈ ps → r.nextfuelingplan = .str s →
      ¬(strStrip s = "" ∨ strStrip s ∈ errTokens)) := by
  refine ⟨blank_or_token_invalid, ?_⟩
  intro rs ps r t s hok hm hstr hbad
  have h := (dateFilter_ok_mem hok hm).2
  rw [hstr, blank_or_token_invalid s hbad] at h
  exact ParseOutcome.noConfusion h

/-- C5, witness: the error token `#N/A` (with surrounding whitespace)
normalizes to the sentinel. -/
theorem c5_witness : safeParseDate (.str " #N/A ") = .invalid :=
  c5.1 " #N/A " (Or.inr (by decide))

/-- C6: each filter stage returns a subsequence of its input rows — no
stage adds or duplicates a row — so the row count never increases at any
stage; and the datetime conversion between the date and coordinate
stages keeps the surviving rows unchanged. -/
theorem c6 :
    (∀ rs : List Row, List.Sublist (regionFilter rs) rs ∧
      (regionFilter rs).length ≤ rs.length) ∧
    (∀ rs : List Row, List.Sublist (statusFilter rs) rs ∧
      (statusFilter rs).length ≤ rs.length) ∧
    (∀ (rs : List Row) (ps : List (Row × DT)), dateFilter rs = .ok ps →
      List.Sublist (ps.map Prod.fst) rs ∧ ps.length ≤ rs.length) ∧
    (∀ ps qs : List (Row × DT), boundsConvert ps = .ok qs → qs = ps) ∧
    (∀ ps : List (Row × DT),
      List.Sublist ((coordFilter ps).map (fun q => (q.1, q.2.1))) ps ∧
      (coordFilter ps).length ≤ ps.length) := by
  refine ⟨?_, ?_, ?_, ?_, ?_⟩
  · intro rs
    exact ⟨List.filter_sublist rs, (List.filter_sublist rs).length_le⟩
  · intro rs
    exact ⟨List.filter_sublist rs, (List.filter_sublist rs).length_le⟩
  · intro rs ps h
    have hs := dateFilter_ok_sublist h
    exact ⟨hs, by simpa using hs.length_le⟩
  · intro ps qs h
    exact boundsConvert_ok h
  · intro ps
    have hs := coordFilter_sublist ps
    exact ⟨hs, by simpa using hs.length_le⟩

/-- C6, witness: the date stage at a concrete one-row table. -/
theorem c6_witness :
    List.Sublist ([(rowA, dtDec15)].map Prod.fst) [rowA] ∧
      ([(rowA, dtDec15)] : List (Row × DT)).length ≤ [rowA].length :=
  c6.2.2.1 [rowA] [(rowA, dtDec15)] (by decide)

/-- C3, counterexample: a Central, in-progress row with latitude cell
`inf` survives every filter — the numeric coercion yields infinity,
which `dropna` keeps — so the final output contains a record whose `lat`
is not a finite number. -/
theorem c3_claim_false :
    cleanAndFilter ⟨hsStd, [rowInf]⟩ =
      .ok [⟨"Site3", "Central", "IN PROGRESS", dtDec15, PFloat.inf,
        .finite (mkRat 466753 10000)⟩] ∧
    ∀ q : Rat, PFloat.inf ≠ PFloat.finite q :=
  ⟨by decide, fun _ h => PFloat.noConfusion h⟩

/-- C3, amended: every record in the final output has a Region equal to
`Central` under case-insensitive comparison, a COWStatus that is
`ON-AIR` or `IN PROGRESS`, a NextFuelingPlan string matching
`YYYY-MM-DD`, and `lat` and `lng` values that are numbers and never NaN;
they need not be finite, because the coordinate coercion accepts
infinity spellings such as `inf`. -/
theorem c3_amended :
    ∀ (tbl : Table) (recs : List CleanRecord), cleanAndFilter tbl = .ok recs →
    ∀ dr ∈ dashRecords recs,
      strLower dr.region = "central" ∧
      (dr.cowStatus = "ON-AIR" ∨ dr.cowStatus = "IN PROGRESS") ∧
      matchesYMD dr.nextFuelingPlan = true ∧
      dr.lat.isNan = false ∧ dr.lng.isNan = false := by
  intro tbl recs hok dr hdr
  rcases hmc : missingCols tbl.headers with _ | ⟨m, ms⟩
  case cons => simp [cleanAndFilter, hmc] at hok
  simp only [cleanAndFilter, hmc] at hok
  rcases hdf : dateFilter (statusFilter (regionFilter tbl.rows)) with e | ps
  · rw [hdf] at hok
    simp [Bind.bind, Except.bind] at hok
  rw [hdf] at hok
  simp only [Bind.bind, Except.bind] at hok
  rcases hbc : boundsConvert ps with e | ps2
  · rw [hbc] at hok
    simp at hok
  rw [hbc] at hok
  simp only [Except.ok.injEq] at hok
  subst hok
  simp only [dashRecords, List.mem_map] at hdr
  obtain ⟨c, ⟨q, hq, hceq⟩, hdreq⟩ := hdr
  obtain ⟨hqmem, hla, hln, hlanan, hlnnan⟩ := coordFilter_shape hq
  rw [boundsConvert_ok hbc] at hqmem
  have hrowmem := (dateFilter_ok_mem hdf hqmem).1
  have hstat := (List.mem_filter.mp hrowmem).2
  have hregmem := (List.mem_filter.mp hrowmem).1
  have hreg := (List.mem_filter.mp hregmem).2
  subst hceq
  subst hdreq
  refine ⟨?_, ?_, ?_, ?_, ?_⟩
  · exact eq_of_beq hreg
  · have hmem2 := List.mem_of_elem_eq_true hstat
    simp only [List.mem_cons, List.not_mem_nil, or_false] at hmem2
    show strStrip (statusStr q.1) = "ON-AIR" ∨ strStrip (statusStr q.1) = "IN PROGRESS"
    rcases hmem2 with h1 | h1 <;> rw [h1]
    · exact Or.inl (by decide)
    · exact Or.inr (by decide)
  · exact matchesYMD_formatYMD _
  · show (q.2.2.1).isNan = false
    rw [hla]
    exact hlanan
  · show (q.2.2.2).isNan = false
    rw [hln]
    exact hlnnan

/-- C3, witness: scenario A's record satisfies every invariant. -/
theorem c3_witness :
    strLower drA.region = "central" ∧
    (drA.cowStatus = "ON-AIR" ∨ drA.cowStatus = "IN PROGRESS") ∧
    matchesYMD drA.nextFuelingPlan = true ∧
    drA.lat.isNan = false ∧ drA.lng.isNan = false :=
  c3_amended ⟨hsStd, [rowA]⟩ [recA] (by decide) drA (by decide)

/-- Helper for C9: when every row either fails the date parse outright or
parses to an in-bounds date but has a missing coordinate, the date,
conversion and coordinate stages succeed and leave nothing. -/
theorem dateChain_empty (rs : List Row)
    (h : ∀ r ∈ rs, safeParseDate r.nextfuelingplan = .invalid ∨
      ∃ t, safeParseDate r.nextfuelingplan = .date t ∧ tsNsInBounds t = true ∧
        ((toNum r.lat).isNan = true ∨ (toNum r.lng).isNan = true)) :
    ∃ ps, dateFilter rs = .ok ps ∧ boundsConvert ps = .ok ps ∧ coordFilter ps = [] := by
  induction rs with
  | nil => exact ⟨[], rfl, rfl, rfl⟩
  | cons a as ih =>
    obtain ⟨ps, h1, h2, h3⟩ := ih (fun r hr => h r (List.mem_cons_of_mem a hr))
    rcases h a (List.mem_cons_self a as) with hinv | ⟨t, hdate, hb, hnan⟩
    · exact ⟨ps, by simp [dateFilter, hinv, h1], h2, h3⟩
    · refine ⟨(a, t) :: ps, ?_, ?_, ?_⟩
      · simp [dateFilter, hdate, h1, Bind.bind, Except.bind]
      · by_cases hall : ps.all (fun p => tsNsInBounds p.2) = true
        · simp [boundsConvert, List.all_cons, hb, hall]
        · simp [boundsConvert, hall] at h2
      · show coordFilter ((a, t) :: ps) = []
        have hcond : ((toNum a.lat).isNan || (toNum a.lng).isNan) = true := by
          rcases hnan with hn | hn <;> simp [hn]
        simp only [coordFilter, List.filterMap_cons, hcond, if_true] at h3 ⊢
        exact h3

/-- C9: a table with the required columns and no rows, and more generally
any table whose rows all die in the filters, passes the pipeline without
error and exports exactly the two-character empty JSON array. -/
theorem c9 :
    (∀ hs : List String, missingCols hs = [] →
      cleanAndFilter ⟨hs, []⟩ = .ok [] ∧ generateDashboard [] = "[]") ∧
    (∀ tbl : Table, missingCols tbl.headers = [] →
      (∀ r ∈ tbl.rows,
        strLower (strStrip (regionStr r)) ≠ "central" ∨
        ¬(statusStr r = "ON-AIR" ∨ statusStr r = "IN PROGRESS") ∨
        safeParseDate r.nextfuelingplan = .invalid ∨
        ∃ t, safeParseDate r.nextfuelingplan = .date t ∧ tsNsInBounds t = true ∧
          ((toNum r.lat).isNan = true ∨ (toNum r.lng).isNan = true)) →
      cleanAndFilter tbl = .ok [] ∧ generateDashboard [] = "[]") := by
  constructor
  · intro hs h
    refine ⟨?_, rfl⟩
    simp only [cleanAndFilter, h]
    rfl
  · intro tbl h hall
    refine ⟨?_, rfl⟩
    simp only [cleanAndFilter, h]
    have hrows : ∀ r ∈ statusFilter (regionFilter tbl.rows),
        safeParseDate r.nextfuelingplan = .invalid ∨
        ∃ t, safeParseDate r.nextfuelingplan = .date t ∧ tsNsInBounds t = true ∧
          ((toNum r.lat).isNan = true ∨ (toNum r.lng).isNan = true) := by
      intro r hr
      have hstat := (List.mem_filter.mp hr).2
      have hregmem := (List.mem_filter.mp hr).1
      have hreg := (List.mem_filter.mp hregmem).2
      have hmem := (List.mem_filter.mp hregmem).1
      rcases hall r hmem with hbad | hbad | hgood | hgood
      · exact absurd (eq_of_beq hreg) hbad
      · refine absurd ?_ hbad
        simpa using List.mem_of_elem_eq_true hstat
      · exact Or.inl hgood
      · exact Or.inr hgood
    obtain ⟨ps, h1, h2, h3⟩ := dateChain_empty _ hrows
    rw [h1]
    simp [Bind.bind, Except.bind, h2, h3]

/-- C9, witness: the canonical headers with zero rows export `[]`. -/
theorem c9_witness :
    cleanAndFilter ⟨hsStd, []⟩ = .ok [] ∧ generateDashboard [] = "[]" :=
  c9.1 hsStd (by decide)

theorem data_mk (cs : List Char) : (⟨cs⟩ : String).data = cs := rfl

theorem mk_data (s : String) : (⟨s.data⟩ : String) = s := rfl

theorem validDT_bounds {y mo d h mi s us ns : Nat}
    (hv : validDT y mo d h mi s us ns = true) :
    1 ≤ y ∧ y ≤ 9999 ∧ 1 ≤ mo ∧ mo ≤ 12 ∧ 1 ≤ d ∧ d ≤ daysInMonth y mo := by
  simp only [validDT, Bool.and_eq_true, decide_eq_true_eq] at hv
  obtain ⟨⟨⟨⟨⟨⟨⟨⟨⟨⟨h1, h2⟩, h3⟩, h4⟩, h5⟩, h6⟩, h7⟩, h8⟩, h9⟩, h10⟩, h11⟩ := hv
  exact ⟨h1, h2, h3, h4, h5, h6⟩

theorem daysInMonth_le_31 (y m : Nat) : daysInMonth y m ≤ 31 := by
  unfold daysInMonth
  split
  · split <;> omega
  · split <;> omega

theorem pyStrip_formatYMD (t : DT) : pyStrip (formatYMD t).data = (formatYMD t).data := by
  simp [formatYMD, pyStrip, dropTrail, List.dropWhile, dChar_not_ws]

theorem formatYMD_not_token (t : DT) : formatYMD t ∉ errTokens := by
  intro hmem
  have h10 : (formatYMD t).data.length = 10 := rfl
  simp only [errTokens, List.mem_cons, List.not_mem_nil, or_false] at hmem
  rcases hmem with h | h | h | h <;> rw [h] at h10 <;> exact absurd h10 (by decide)

theorem pMDY_formatYMD (t : DT) : pMDY (formatYMD t) = Option.none := by
  simp only [pMDY, formatYMD, data_mk, takeNum2, dChar_isDigit, Bool.and_self, if_true]
  split
  · simp [Bind.bind, Option.bind, expectChar, dChar_ne_dash]
  · rfl

theorem pYMD_formatYMD (y mo d : Nat) (h : validDT y mo d 0 0 0 0 0 = true) :
    pYMD (formatYMD ⟨y, mo, d, 0, 0, 0, 0, 0, h⟩) = some ⟨y, mo, d, 0, 0, 0, 0, 0, h⟩ := by
  obtain ⟨hy1, hy2, hm1, hm2, hd1, hd2⟩ := validDT_bounds h
  have hd31 : d ≤ 31 := le_trans hd2 (daysInMonth_le_31 y mo)
  have hyv : 1000 * (y / 1000 % 10) + 100 * (y / 100 % 10) + 10 * (y / 10 % 10) + y % 10 = y := by
    omega
  have hmv : 10 * (mo / 10 % 10) + mo % 10 = mo := by omega
  have hdv : 10 * (d / 10 % 10) + d % 10 = d := by omega
  simp [pYMD, formatYMD, data_mk, takeYear4, takeNum2, expectChar, mkDate,
    dChar_isDigit, digitVal_dChar, Bind.bind, Option.bind, hyv, hmv, hdv,
    hm1, hm2, hd1, hd31, h]

/-- C7: the date normalizer is idempotent on its own canonical output
format — for every valid calendar date, normalizing its `YYYY-MM-DD`
text rendering returns exactly that calendar date (the first format,
`%m-%d-%Y`, can never match such a string, and the second, `%Y-%m-%d`,
reparses it exactly). -/
theorem c7 :
    ∀ (y mo d : Nat) (h : validDT y mo d 0 0 0 0 0 = true),
      safeParseDate (.str (formatYMD ⟨y, mo, d, 0, 0, 0, 0, 0, h⟩)) =
        .date ⟨y, mo, d, 0, 0, 0, 0, 0, h⟩ := by
  intro y mo d h
  show parseString (formatYMD ⟨y, mo, d, 0, 0, 0, 0, 0, h⟩) = _
  have hne : ((formatYMD ⟨y, mo, d, 0, 0, 0, 0, 0, h⟩).data.isEmpty) = false := rfl
  simp only [parseString, pyStrip_formatYMD, mk_data]
  rw [if_neg (by simp [hne]), if_neg (formatYMD_not_token _)]
  simp only [formatsList, tryFormats, pMDY_formatYMD, pYMD_formatYMD y mo d h]

/-- C7, witness: the rendering of 2025-12-15 normalizes back to itself. -/
theorem c7_witness :
    safeParseDate (.str (formatYMD dtDec15)) = .date dtDec15 :=
  c7 2025 12 15 (by decide)

end CentralFuel
